import Mathlib

/-!
# Verification of the Stock_Forcast forecasting/backtesting core

Shallow embedding of `backend/backtesting.py` and `backend/prediction.py`.

Conventions of the embedding:
* A raw `PriceSeries` is a chronological list of closing prices `List ℚ`;
  the date of the row at position `t` is represented by the natural number `t`
  (the code's `DatetimeIndex` is strictly increasing, so positions and dates
  are in order-preserving bijection).
* Pandas `NaN` propagation is modelled with `Option`: a derived cell is `none`
  exactly where pandas would produce `NaN` (assuming, as the spec's data model
  does, that closes are present and positive).
* The `volatility` column holds the rolling *sample standard deviation* of the
  returns column; a row stores the exact rational sample variance `vol20sq`
  and the (irrational) standard deviation is `Real.sqrt vol20sq`, applied at
  every use site, which is value-identical to storing the float std.
* Real-number results of metric computations use Lean's total field operations;
  `x / 0 = 0` stands in for the `NaN` metrics of an empty mean, which no claim
  depends upon.
-/

/-- One row of the indicator table built by `PredictionBacktester._prepare_data`:
the surviving columns after `dropna`, tagged with its position `idx` in the
raw series (its date). -/
structure IndRow where
  idx : ℕ
  close : ℚ
  ret : ℚ
  ma50 : ℚ
  momentum : ℚ
  /-- square of the `volatility` column (rolling sample variance of returns) -/
  vol20sq : ℚ
  deriving DecidableEq, Repr

instance : Inhabited IndRow := ⟨⟨0, 0, 0, 0, 0, 0⟩⟩

/-- The float value of the `volatility` column of a row:
sample standard deviation of the trailing 20 returns. -/
noncomputable def IndRow.volatility (r : IndRow) : ℝ :=
  Real.sqrt (r.vol20sq : ℝ)

/-- `df['close'].pct_change()` at position `t` (value, ignoring NaN placement):
`close[t]/close[t-1] - 1`. -/
def retVal (c : List ℚ) (t : ℕ) : ℚ :=
  c.getD t 0 / c.getD (t - 1) 0 - 1

/-- `df['close'].rolling(window=50).mean()` at position `t` (value):
arithmetic mean of `close[t-49..t]`. -/
def ma50Val (c : List ℚ) (t : ℕ) : ℚ :=
  ((List.range 50).map (fun i => c.getD (t - i) 0)).sum / 50

/-- `df['close'].pct_change(periods=20)` at position `t` (value):
`close[t]/close[t-20] - 1`. -/
def momVal (c : List ℚ) (t : ℕ) : ℚ :=
  c.getD t 0 / c.getD (t - 20) 0 - 1

/-- Sample variance (`ddof = 1`, as pandas `.std()` squared) of a list. -/
def sampleVar (xs : List ℚ) : ℚ :=
  let n : ℚ := xs.length
  let m : ℚ := xs.sum / n
  (xs.map (fun x => (x - m) ^ 2)).sum / (n - 1)

/-- Value of the rolling variance of returns over the window `t-19..t`. -/
def volSqVal (c : List ℚ) (t : ℕ) : ℚ :=
  sampleVar ((List.range 20).map (fun i => retVal c (t - i)))

/-- `returns` column with its NaN placement: NaN exactly at position 0
(`pct_change` of the first row). -/
def retAt (c : List ℚ) (t : ℕ) : Option ℚ :=
  if 1 ≤ t ∧ t < c.length then some (retVal c t) else none

/-- `MA50` column with its NaN placement: the 50-row window must be full,
so the first defined position is 49. -/
def ma50At (c : List ℚ) (t : ℕ) : Option ℚ :=
  if 49 ≤ t ∧ t < c.length then some (ma50Val c t) else none

/-- `momentum` column with its NaN placement: needs `close[t-20]`, so the
first defined position is 20. -/
def momAt (c : List ℚ) (t : ℕ) : Option ℚ :=
  if 20 ≤ t ∧ t < c.length then some (momVal c t) else none

/-- `volatility` column (as its square) with its NaN placement: the 20-row
window of returns must avoid the NaN at position 0, so the first defined
position is 20. -/
def volSqAt (c : List ℚ) (t : ℕ) : Option ℚ :=
  if 20 ≤ t ∧ t < c.length then some (volSqVal c t) else none

/-- The indicator row kept at position `t` once every derived column is
defined there. -/
def mkRow (c : List ℚ) (t : ℕ) : IndRow :=
  ⟨t, c.getD t 0, retVal c t, ma50Val c t, momVal c t, volSqVal c t⟩

/-- `PredictionBacktester._prepare_data`: derive the four indicator columns
and `dropna`, keeping exactly the rows where every column is defined,
in chronological order. -/
def prepare (c : List ℚ) : List IndRow :=
  (List.range c.length).filterMap fun t =>
    match retAt c t, ma50At c t, momAt c t, volSqAt c t with
    | some r, some ma, some mo, some v => some ⟨t, c.getD t 0, r, ma, mo, v⟩
    | _, _, _, _ => none

section PrepareStructure

/-- A `filterMap` whose function is an if-then-some/none split is a `map`
over a `filter`. -/
theorem filterMap_eq_map_filter {α β : Type _} (f : α → Option β) (p : α → Bool)
    (g : α → β) (l : List α) (h : ∀ a ∈ l, f a = if p a then some (g a) else none) :
    l.filterMap f = (l.filter p).map g := by
  induction l with
  | nil => rfl
  | cons a l ih =>
    have ha := h a (List.mem_cons_self a l)
    have ih' := ih fun x hx => h x (List.mem_cons_of_mem a hx)
    by_cases hp : p a
    · simp [List.filterMap_cons, List.filter_cons, hp, ha, ih']
    · simp only [Bool.not_eq_true] at hp
      simp [List.filterMap_cons, List.filter_cons, hp, ha, ih']

/-- The positions `≥ k` among `0..n-1`, in order. -/
theorem filter_range_le (k n : ℕ) :
    (List.range n).filter (fun t => decide (k ≤ t)) = List.range' k (n - k) := by
  induction n with
  | zero => simp
  | succ n ih =>
    rw [List.range_succ, List.filter_append, ih]
    by_cases hk : k ≤ n
    · have h1 : n + 1 - k = (n - k) + 1 := by omega
      have h2 : k + (n - k) = n := by omega
      simp [hk, h1, List.range'_concat, h2]
    · have h1 : n + 1 - k = 0 := by omega
      have h2 : n - k = 0 := by omega
      simp [hk, h1, h2]

/-- Structure of the prepared table: `dropna` keeps exactly the positions
`49 ≤ t < L` (everything from the first full 50-day moving-average window on),
each carrying the four derived values, in chronological order. -/
theorem prepare_structure (c : List ℚ) :
    prepare c = (List.range' 49 (c.length - 49)).map (mkRow c) := by
  rw [prepare, ← filter_range_le 49 c.length,
    filterMap_eq_map_filter _ (fun t => decide (49 ≤ t)) (mkRow c)]
  intro t ht
  have htL : t < c.length := List.mem_range.mp ht
  by_cases h49 : 49 ≤ t
  · have h1 : 1 ≤ t := by omega
    have h20 : 20 ≤ t := by omega
    simp [retAt, ma50At, momAt, volSqAt, h1, h20, h49, htL, mkRow]
  · have hma : ma50At c t = none := by simp [ma50At, h49]
    rw [hma, if_neg (by simpa using h49)]
    rcases retAt c t with _ | r <;> rcases momAt c t with _ | m <;>
      rcases volSqAt c t with _ | v <;> simp

/-- Row count of the prepared table: the raw length minus the 49 leading
rows lost to the 50-day moving average. -/
theorem prepare_length (c : List ℚ) : (prepare c).length = c.length - 49 := by
  rw [prepare_structure]; simp

/-- The dates (positions) of the prepared table, in chronological order. -/
theorem prepare_idx (c : List ℚ) :
    (prepare c).map (·.idx) = List.range' 49 (c.length - 49) := by
  rw [prepare_structure, List.map_map]
  have : (IndRow.idx ∘ mkRow c) = id := by funext t; rfl
  rw [this, List.map_id]

end PrepareStructure

/-! ## `PredictionBacktester._make_prediction` -/

/-- `PredictionBacktester._make_prediction(data, horizon)`: a point forecast
from the last row (`iloc[-1]`) of the indicator table handed in.
Transcribed line by line from the source (the `print` diagnostics carry no
value and are omitted). An empty table is represented through `getLastD`
with the zero row (the source would raise `IndexError`; every claim about
this function assumes a nonempty table). -/
noncomputable def make_prediction (data : List IndRow) (horizon : ℕ) : ℝ :=
  let last := data.getLastD default
  let current_price : ℝ := (last.close : ℝ)
  let momentum : ℝ := (last.momentum : ℝ)
  let current_ma : ℝ := (last.ma50 : ℝ)
  let volatility : ℝ := last.volatility
  let momentum_effect := momentum * Real.sqrt ((horizon : ℝ) / 20)
  let ma_diff := (current_price - current_ma) / current_ma
  let mean_reversion := -ma_diff * 0.1 * (horizon : ℝ)
  let total_effect := (momentum_effect + mean_reversion) * (1 + volatility)
  current_price * (1 + total_effect)

/-- The point-prediction formula exactly as the specification states it,
as a function of a single indicator row and the horizon. -/
noncomputable def specPredictionFormula (r : IndRow) (horizonDays : ℕ) : ℝ :=
  (r.close : ℝ) *
    (1 + ((r.momentum : ℝ) * Real.sqrt ((horizonDays : ℝ) / 20) +
          (-(((r.close : ℝ) - (r.ma50 : ℝ)) / (r.ma50 : ℝ))) * 0.1 * (horizonDays : ℝ)) *
         (1 + r.volatility))

/-! ## `PredictionBacktester.backtest_prediction` -/

/-- Failures the backtesting/accuracy path can raise. -/
inductive PredError where
  /-- the `IndexError` of `test_data['close'].iloc[0]` on an empty slice -/
  | indexError
  /-- `ValueError("No historical data provided")` -/
  | noData
  /-- `ValueError("Missing required columns ...")` -/
  | missingCols
  /-- `ValueError("Insufficient historical data for backtesting ...")` -/
  | insufficientData
  deriving DecidableEq, Repr

/-- The dictionary returned by `backtest_prediction`. The `date_range`
string is represented by the first and last position of the test slice. -/
structure BacktestReport where
  mape : ℝ
  rmse : ℝ
  directional_accuracy : ℝ
  n_predictions : ℕ
  date_start : ℕ
  date_end : ℕ

/-- `self.data[start_date:end_date]`: label slicing of a `DatetimeIndex` is
inclusive at both ends. -/
def testSlice (data : List IndRow) (s e : ℕ) : List IndRow :=
  data.filter fun r => decide (s ≤ r.idx ∧ r.idx ≤ e)

/-- `self.data[:d]`: every indicator row dated up to and including `d`
(the expanding as-of window). -/
def asOf (data : List IndRow) (d : ℕ) : List IndRow :=
  data.filter fun r => decide (r.idx ≤ d)

/-- close of the test-slice row at position `i` (`test_data['close'].iloc[i]`). -/
def sliceClose (data : List IndRow) (s e : ℕ) (i : ℕ) : ℝ :=
  (((testSlice data s e).getD i default).close : ℝ)

/-- `predictions[i]`: the forecast made from all data up to the date of the
`i`-th test-slice row. -/
noncomputable def predAt (data : List IndRow) (s e horizon : ℕ) (i : ℕ) : ℝ :=
  make_prediction (asOf data ((testSlice data s e).getD i default).idx) horizon

/-- `actuals[i] = test_data['close'].iloc[i + prediction_horizon]`. -/
def actualAt (data : List IndRow) (s e horizon : ℕ) (i : ℕ) : ℝ :=
  sliceClose data s e (i + horizon)

/-- `actual_moves[i]`: one-step realized change of the test-slice closes. -/
def actualMove (data : List IndRow) (s e : ℕ) (i : ℕ) : ℝ :=
  sliceClose data s e (i + 1) - sliceClose data s e i

/-- `pred_moves[i]`: horizon-step predicted move against the slice close. -/
noncomputable def predMove (data : List IndRow) (s e horizon : ℕ) (i : ℕ) : ℝ :=
  predAt data s e horizon i - sliceClose data s e i

open Classical in
/-- `PredictionBacktester.backtest_prediction(start_date, end_date, horizon)`.

The prediction loop runs for `i < len(test_data) - horizon` (empty when the
slice is no longer than the horizon).  Aggregation mirrors the source:
`mape`/`rmse` are means over the predictions; `directional_accuracy` compares
`np.sign` of the one-step realized move with `np.sign` of the predicted move
and is reported ×100.  The access `test_data['close'].iloc[i]` for
`i ≤ n_predictions` raises `IndexError` whenever the slice is shorter than
`n_predictions + 1` (that is, exactly when the slice is empty). -/
noncomputable def backtest_prediction (data : List IndRow) (s e : ℕ) (horizon : ℕ) :
    Except PredError BacktestReport :=
  let ts := testSlice data s e
  let n := ts.length - horizon
  if ts.length < n + 1 then .error .indexError
  else .ok {
    mape := ((∑ i ∈ Finset.range n,
        |(predAt data s e horizon i - actualAt data s e horizon i) /
          actualAt data s e horizon i|) / n) * 100
    rmse := Real.sqrt ((∑ i ∈ Finset.range n,
        (predAt data s e horizon i - actualAt data s e horizon i) ^ 2) / n)
    directional_accuracy := ((∑ i ∈ Finset.range n,
        if Real.sign (actualMove data s e i) = Real.sign (predMove data s e horizon i)
        then (1 : ℝ) else 0) / n) * 100
    n_predictions := n
    date_start := (ts.getD 0 default).idx
    date_end := (ts.getD (ts.length - 1) default).idx }

/-! ## `generate_price_prediction` (confidence side) -/

/-- Sample standard deviation of a list of rationals, as pandas `.std()`. -/
noncomputable def sampleStd (xs : List ℚ) : ℝ :=
  Real.sqrt ((sampleVar xs : ℝ))

/-- `window_size = min(50, len(historical_data) - 10)` followed by
`prediction_window = historical_data.iloc[-window_size:]`, with Python's
slicing semantics at a non-positive size: `iloc[-0:]` is the whole table and
a negative `-w` start means dropping `-w` leading rows. -/
def predictionWindow (table : List IndRow) : List IndRow :=
  let w : ℤ := min 50 ((table.length : ℤ) - 10)
  if w = 0 then table
  else if 0 < w then table.drop (table.length - w.toNat)
  else table.drop (-w).toNat

/-- `volatility = prediction_window['returns'].std() * np.sqrt(days_until_target)`. -/
noncomputable def forecastVolatility (window : List IndRow) (days : ℕ) : ℝ :=
  sampleStd (window.map (·.ret)) * Real.sqrt (days : ℝ)

/-- The 80% confidence interval of `generate_price_prediction`:
`confidence_80 = volatility * 1.28`,
`[prediction * (1 - confidence_80), prediction * (1 + confidence_80)]`. -/
noncomputable def confidenceInterval80 (window : List IndRow) (days : ℕ)
    (prediction : ℝ) : ℝ × ℝ :=
  let confidence_80 := forecastVolatility window days * 1.28
  (prediction * (1 - confidence_80), prediction * (1 + confidence_80))

/-- The 95% confidence interval of `generate_price_prediction`:
`confidence_95 = volatility * 1.96`,
`[prediction * (1 - confidence_95), prediction * (1 + confidence_95)]`. -/
noncomputable def confidenceInterval95 (window : List IndRow) (days : ℕ)
    (prediction : ℝ) : ℝ × ℝ :=
  let confidence_95 := forecastVolatility window days * 1.96
  (prediction * (1 - confidence_95), prediction * (1 + confidence_95))

/-- `'probability_within_5_percent': min(95, 100 * (1 - volatility))`. -/
noncomputable def probabilityWithin5Pct (window : List IndRow) (days : ℕ) : ℝ :=
  min 95 (100 * (1 - forecastVolatility window days))

/-- The point forecast of `generate_price_prediction`: `_make_prediction`
applied to the prediction window sliced from the supplied table. -/
noncomputable def generatePrediction (table : List IndRow) (days : ℕ) : ℝ :=
  make_prediction (predictionWindow table) days

/-- Claim-side formulation of the confidence intervals, exactly as the
specification writes them: `[p·(1 − z·vol), p·(1 + z·vol)]`. -/
noncomputable def specCI (z : ℝ) (predictedPrice volatility : ℝ) : ℝ × ℝ :=
  (predictedPrice * (1 - z * volatility), predictedPrice * (1 + z * volatility))

/-! ## `get_historical_accuracy` -/

/-- The pandas `DataFrame` handed to `get_historical_accuracy`, as the caller
sees it: the close column, whether all of
`['open','high','low','close','volume']` are present, and whether the index
is already a `DatetimeIndex`.  Mutation of the caller's frame is modelled by
returning the updated frame alongside the result. -/
structure PyDF where
  closes : List ℚ
  hasOHLCV : Bool
  dtIndex : Bool
  deriving DecidableEq, Repr

/-- `get_historical_accuracy(df, days_ahead)`, returned together with the
state of the *caller's* dataframe after the call:

* empty frame / missing columns raise before anything is touched;
* `df.index = pd.to_datetime(df.index)` is executed on the caller's frame
  whenever the index is not already datetime — before the length check;
* the length guard compares `len(df)` (the raw series) with `60 + days_ahead`;
* otherwise `PredictionBacktester(df)` (which works on a `.copy()`) is built
  and `backtest_prediction` runs from the raw position `len - (60 + days)`
  to the last position. -/
noncomputable def get_historical_accuracy (df : PyDF) (days_ahead : ℕ) :
    Except PredError BacktestReport × PyDF :=
  if df.closes.isEmpty then (.error .noData, df)
  else if !df.hasOHLCV then (.error .missingCols, df)
  else
    let df' := if df.dtIndex then df else { df with dtIndex := true }
    if df.closes.length < 60 + days_ahead then (.error .insufficientData, df')
    else
      (backtest_prediction (prepare df.closes)
        (df.closes.length - (60 + days_ahead)) (df.closes.length - 1) days_ahead, df')

/-! ## IEEE / numpy float semantics for the unguarded `ma50` division (C4)

`_make_prediction` divides by `current_ma` with no guard.  Its operands are
numpy `float64` values, for which division by zero yields `±inf`/`nan` with a
runtime warning — it does not raise.  To settle the claim about that path we
re-run the same formula over a value domain that tracks non-finite results. -/

/-- A numpy `float64` value: finite (exact real), `inf`, `-inf`, or `nan`. -/
inductive FVal where
  | fin (x : ℝ)
  | inf
  | ninf
  | nan

/-- Is the value finite? -/
def FVal.isFinite : FVal → Bool
  | .fin _ => true
  | _ => false

/-- numpy addition. -/
noncomputable def FVal.add : FVal → FVal → FVal
  | .nan, _ => .nan
  | _, .nan => .nan
  | .fin x, .fin y => .fin (x + y)
  | .fin _, .inf => .inf
  | .inf, .fin _ => .inf
  | .inf, .inf => .inf
  | .fin _, .ninf => .ninf
  | .ninf, .fin _ => .ninf
  | .ninf, .ninf => .ninf
  | .inf, .ninf => .nan
  | .ninf, .inf => .nan

/-- numpy negation. -/
noncomputable def FVal.neg : FVal → FVal
  | .fin x => .fin (-x)
  | .inf => .ninf
  | .ninf => .inf
  | .nan => .nan

/-- numpy subtraction. -/
noncomputable def FVal.sub (a b : FVal) : FVal := a.add b.neg

open Classical in
/-- numpy multiplication (`±inf` times a finite value follows the sign;
`±inf · 0 = nan`). -/
noncomputable def FVal.mul : FVal → FVal → FVal
  | .nan, _ => .nan
  | _, .nan => .nan
  | .fin x, .fin y => .fin (x * y)
  | .fin x, .inf => if 0 < x then .inf else if x < 0 then .ninf else .nan
  | .inf, .fin x => if 0 < x then .inf else if x < 0 then .ninf else .nan
  | .fin x, .ninf => if 0 < x then .ninf else if x < 0 then .inf else .nan
  | .ninf, .fin x => if 0 < x then .ninf else if x < 0 then .inf else .nan
  | .inf, .inf => .inf
  | .inf, .ninf => .ninf
  | .ninf, .inf => .ninf
  | .ninf, .ninf => .inf

open Classical in
/-- numpy division: a nonzero finite value divided by zero is `±inf`
(with a `RuntimeWarning`, not an exception), `0.0/0.0` is `nan`. -/
noncomputable def FVal.div : FVal → FVal → FVal
  | .nan, _ => .nan
  | _, .nan => .nan
  | .fin x, .fin y =>
      if y = 0 then (if 0 < x then .inf else if x < 0 then .ninf else .nan)
      else .fin (x / y)
  | .fin _, .inf => .fin 0
  | .fin _, .ninf => .fin 0
  | .inf, .fin y => if y < 0 then .ninf else .inf
  | .ninf, .fin y => if y < 0 then .inf else .ninf
  | .inf, .inf => .nan
  | .inf, .ninf => .nan
  | .ninf, .inf => .nan
  | .ninf, .ninf => .nan

open Classical in
/-- `np.sqrt` on a float64 value. -/
noncomputable def FVal.sqrtv : FVal → FVal
  | .fin x => if x < 0 then .nan else .fin (Real.sqrt x)
  | .inf => .inf
  | .ninf => .nan
  | .nan => .nan

/-- `_make_prediction`, line for line, over numpy float values, applied to
the fields of the last row (`current_price`, `momentum`, `current_ma`,
`volatility`) and the horizon.  No guard precedes the `ma_diff` division. -/
noncomputable def make_prediction_float (current_price momentum current_ma volatility : ℝ)
    (horizon : ℕ) : FVal :=
  let P := FVal.fin current_price
  let M := FVal.fin momentum
  let MA := FVal.fin current_ma
  let V := FVal.fin volatility
  let momentum_effect := M.mul (((FVal.fin (horizon : ℝ)).div (FVal.fin 20)).sqrtv)
  let ma_diff := (P.sub MA).div MA
  let mean_reversion := (ma_diff.neg.mul (FVal.fin 0.1)).mul (FVal.fin (horizon : ℝ))
  let total_effect := (momentum_effect.add mean_reversion).mul ((FVal.fin 1).add V)
  P.mul ((FVal.fin 1).add total_effect)

/-! ## Claims -/

/-- C1 counterexample: a 50-day series (no missing closes) yields 1 indicator
row — `rolling(window=50)` is first defined at position 49, so `dropna` keeps
`max(0, L - 49)` rows, not the claimed `max(0, L - 50)`. -/
theorem c1_counterexample_len50 :
    (prepare (List.replicate 50 (100 : ℚ))).length ≠ max 0 (50 - 50) := by
  rw [prepare_length]
  simp

/-- C1 (amended): for a PriceSeries of length `L` with all closes present and
positive, indicator derivation keeps exactly `max(0, L - 49)` rows — the rows
at positions `49..L-1`, in chronological order, each carrying the four derived
fields (non-NaN). -/
theorem c1_indicator_row_count (c : List ℚ) (hpos : ∀ x ∈ c, 0 < x) :
    prepare c = (List.range' 49 (c.length - 49)).map (mkRow c) ∧
      (prepare c).length = c.length - 49 := by
  exact ⟨prepare_structure c, prepare_length c⟩

/-- C1 witness: a 60-day all-positive flat series keeps 11 rows, at
positions 49..59. -/
theorem c1_witness :
    (∀ x ∈ List.replicate 60 (100 : ℚ), 0 < x) ∧
      (prepare (List.replicate 60 (100 : ℚ))).length = 60 - 49 :=
  ⟨by decide, (c1_indicator_row_count (List.replicate 60 (100 : ℚ)) (by decide)).2.trans
    (by simp)⟩

/-- C2: the point prediction reads only the last row of the supplied
indicator table and equals the spec's formula
`close·(1 + (momentum·√(h/20) + (−(close − ma50)/ma50)·0.1·h)·(1 + volatility))`
evaluated on that row. -/
theorem c2_point_prediction_formula (rows : List IndRow) (horizon : ℕ)
    (hne : rows ≠ []) (h1 : 1 ≤ horizon) :
    make_prediction rows horizon = specPredictionFormula (rows.getLastD default) horizon := by
  unfold make_prediction specPredictionFormula
  ring

/-- C2 witness: the formula instantiated on a concrete one-row table. -/
theorem c2_witness :
    ([(⟨0, 100, 1/2, 50, 2, 9⟩ : IndRow)] ≠ ([] : List IndRow)) ∧
      make_prediction [⟨0, 100, 1/2, 50, 2, 9⟩] 20 =
        specPredictionFormula (([(⟨0, 100, 1/2, 50, 2, 9⟩ : IndRow)]).getLastD default) 20 :=
  ⟨by simp, c2_point_prediction_formula [⟨0, 100, 1/2, 50, 2, 9⟩] 20 (by simp) (by norm_num)⟩

/-- C3 (amended): a date window over the indicator table that yields no valid
prediction index returns the degenerate report with `nPredictions = 0` only
when the window still overlaps the table (`0 < len(testSlice) ≤ horizonDays`);
an *empty* overlap instead raises (the `IndexError` of
`test_data['close'].iloc[0]` in the directional-accuracy block). -/
theorem c3_degenerate_backtest (data : List IndRow) (s e horizon : ℕ) :
    (testSlice data s e ≠ [] → (testSlice data s e).length ≤ horizon →
      ∃ r, backtest_prediction data s e horizon = Except.ok r ∧ r.n_predictions = 0) ∧
    (testSlice data s e = [] →
      backtest_prediction data s e horizon = Except.error PredError.indexError) := by
  constructor
  · intro hne hlen
    have hn : (testSlice data s e).length - horizon = 0 := by omega
    have hpos : 0 < (testSlice data s e).length := List.length_pos.mpr hne
    simp only [backtest_prediction]
    rw [if_neg (by omega)]
    exact ⟨_, rfl, hn⟩
  · intro hemp
    have hlen : (testSlice data s e).length = 0 := by simp [hemp]
    simp only [backtest_prediction]
    rw [if_pos (by omega)]

/-- C3 witness: a 3-row indicator table; the slice `[0, 9]` keeps all 3 rows,
so with horizon 5 there are zero valid indices and the call still returns a
report with `n_predictions = 0`; the slice `[100, 200]` is an empty overlap
and the call raises. -/
theorem c3_witness :
    (∃ r, backtest_prediction
        [⟨0, 10, 0, 10, 0, 0⟩, ⟨1, 11, 0, 10, 0, 0⟩, ⟨2, 12, 0, 10, 0, 0⟩] 0 9 5 =
          Except.ok r ∧ r.n_predictions = 0) ∧
      backtest_prediction
        [⟨0, 10, 0, 10, 0, 0⟩, ⟨1, 11, 0, 10, 0, 0⟩, ⟨2, 12, 0, 10, 0, 0⟩] 100 200 5 =
          Except.error PredError.indexError :=
  ⟨(c3_degenerate_backtest
      [⟨0, 10, 0, 10, 0, 0⟩, ⟨1, 11, 0, 10, 0, 0⟩, ⟨2, 12, 0, 10, 0, 0⟩] 0 9 5).1
      (by decide) (by decide),
   (c3_degenerate_backtest
      [⟨0, 10, 0, 10, 0, 0⟩, ⟨1, 11, 0, 10, 0, 0⟩, ⟨2, 12, 0, 10, 0, 0⟩] 100 200 5).2
      (by decide)⟩

/-- C3 counterexample: an empty overlap (a two-row table sliced at `[50, 60]`)
does not return a degenerate report — the call fails with the slice
`IndexError`, refuting the claim that an empty overlap also yields
`nPredictions = 0` without an error. -/
theorem c3_counterexample_empty_overlap :
    backtest_prediction [⟨0, 10, 0, 10, 0, 0⟩, ⟨1, 11, 0, 10, 0, 0⟩] 50 60 3 =
      Except.error PredError.indexError := by
  simp only [backtest_prediction]
  rw [if_pos (by decide)]

/-- C4 counterexample: with `ma50 = 0` (last row `close = 100`,
`momentum = 0`, `volatility = 0`) and a 10-day horizon the predictor does not
fail — the unguarded numpy division produces `inf`, the mean-reversion term
`-inf`, and the returned "price" is `-inf`: a silently non-finite result,
refuting the claimed guarded division error. -/
theorem c4_counterexample_ma50_zero :
    make_prediction_float 100 0 0 0 10 = FVal.ninf := by
  have h01 : (0 : ℝ) < 0.1 := by norm_num
  simp [make_prediction_float, FVal.sub, FVal.neg, FVal.add, FVal.div, FVal.mul,
    FVal.sqrtv, h01]
  norm_num

/-- C4 (amended): the `ma_diff` division is not guarded.  Whenever the last
row has `ma50 = 0`, a positive `currentClose` and nonnegative `volatility20`,
`_make_prediction` under numpy float semantics returns the infinite price
`-inf` (no exception, no finite value) for every horizon ≥ 1. -/
theorem c4_division_unguarded (p m v : ℝ) (horizon : ℕ)
    (hp : 0 < p) (hv : 0 ≤ v) (h1 : 1 ≤ horizon) :
    make_prediction_float p m 0 v horizon = FVal.ninf ∧
      (make_prediction_float p m 0 v horizon).isFinite = false := by
  have h01 : (0 : ℝ) < 0.1 := by norm_num
  have hh : (0 : ℝ) < (horizon : ℝ) := by exact_mod_cast Nat.lt_of_lt_of_le Nat.zero_lt_one h1
  have h1v : (0 : ℝ) < 1 + v := by linarith
  have hq : ¬ ((horizon : ℝ) / 20 < 0) := not_lt.mpr (by positivity)
  have hmain : make_prediction_float p m 0 v horizon = FVal.ninf := by
    simp [make_prediction_float, FVal.sub, FVal.neg, FVal.add, FVal.div, FVal.mul,
      FVal.sqrtv, h01, hp, hh, h1v, hq]
  exact ⟨hmain, by rw [hmain]; rfl⟩

/-- C4 witness: the amended statement at `close = 7`, `momentum = 2`,
`volatility = 1`, horizon 3. -/
theorem c4_witness :
    (0 : ℝ) < 7 ∧ (0 : ℝ) ≤ 1 ∧
      make_prediction_float 7 2 0 1 3 = FVal.ninf :=
  ⟨by norm_num, by norm_num,
    (c4_division_unguarded 7 2 1 3 (by norm_num) (by norm_num) (by norm_num)).1⟩

/-- C5 counterexample: a two-row prediction window with returns `2` and `-2`
(sample standard deviation `√8 > 1`) at horizon 1 gives
`probabilityWithin5Pct = 100·(1 − √8) < 0` — the value is not bounded below
by 0, only clamped above at 95. -/
theorem c5_counterexample_negative :
    probabilityWithin5Pct [⟨0, 100, 2, 100, 0, 0⟩, ⟨1, 100, -2, 100, 0, 0⟩] 1 < 0 := by
  have hmap : (([⟨0, 100, 2, 100, 0, 0⟩, ⟨1, 100, -2, 100, 0, 0⟩] :
      List IndRow).map (·.ret)) = [2, -2] := rfl
  have hvar : sampleVar [2, -2] = 8 := by
    norm_num [sampleVar]
  have hvol : forecastVolatility [⟨0, 100, 2, 100, 0, 0⟩, ⟨1, 100, -2, 100, 0, 0⟩] 1 =
      Real.sqrt 8 := by
    rw [forecastVolatility, sampleStd, hmap, hvar]
    norm_num
  have h8 : (1 : ℝ) < Real.sqrt 8 := (Real.lt_sqrt (by norm_num)).mpr (by norm_num)
  have hneg : 100 * (1 - forecastVolatility [⟨0, 100, 2, 100, 0, 0⟩,
      ⟨1, 100, -2, 100, 0, 0⟩] 1) < 0 := by
    rw [hvol]; nlinarith
  exact lt_of_le_of_lt (min_le_right _ _) hneg

/-- C5 (amended): `probabilityWithin5Pct` is clamped above at 95 for every
prediction window and horizon, but it is not bounded below by 0 (it is
negative whenever the scaled window volatility exceeds 1). -/
theorem c5_probability_upper_bound (window : List IndRow) (days : ℕ) :
    probabilityWithin5Pct window days ≤ 95 :=
  min_le_left _ _

/-- C6: the confidence estimator's intervals are exactly the spec's
`[p·(1 − 1.28·vol), p·(1 + 1.28·vol)]` and `[p·(1 − 1.96·vol), p·(1 + 1.96·vol)]`
around the predicted price, with
`vol = stdDev(returns over window)·√horizonDays`. -/
theorem c6_confidence_intervals (window : List IndRow) (days : ℕ) (prediction : ℝ) :
    confidenceInterval80 window days prediction =
        specCI 1.28 prediction (sampleStd (window.map (·.ret)) * Real.sqrt (days : ℝ)) ∧
      confidenceInterval95 window days prediction =
        specCI 1.96 prediction (sampleStd (window.map (·.ret)) * Real.sqrt (days : ℝ)) := by
  constructor <;>
    · simp only [confidenceInterval80, confidenceInterval95, specCI, forecastVolatility]
      exact Prod.ext (by ring) (by ring)

/-- The backtester itself can only raise the empty-slice `IndexError`; it
never reports insufficient data. -/
theorem backtest_no_insufficient (data : List IndRow) (s e horizon : ℕ) :
    backtest_prediction data s e horizon ≠ Except.error PredError.insufficientData := by
  simp only [backtest_prediction]
  split
  · simp
  · simp

/-- C7 (amended): the `InsufficientDataError` guard of
`get_historical_accuracy` compares the length of the *raw* price series with
`60 + horizonDays`; it fires exactly when `0 < len(df) < 60 + horizonDays`
(for a frame with the required columns).  The length of the *derived*
indicator table is never checked. -/
theorem c7_insufficient_data_guard (df : PyDF) (days : ℕ)
    (hcols : df.hasOHLCV = true) :
    (get_historical_accuracy df days).1 = Except.error PredError.insufficientData ↔
      df.closes ≠ [] ∧ df.closes.length < 60 + days := by
  by_cases hemp : df.closes.isEmpty
  · have hnil : df.closes = [] := List.isEmpty_iff.mp hemp
    have hfst : (get_historical_accuracy df days).1 = Except.error PredError.noData := by
      unfold get_historical_accuracy
      simp [hemp]
    rw [hfst]
    simp [hnil]
  · have hne : df.closes ≠ [] := by
      intro h
      exact hemp (by simp [h])
    by_cases hlt : df.closes.length < 60 + days
    · have hfst : (get_historical_accuracy df days).1 =
          Except.error PredError.insufficientData := by
        unfold get_historical_accuracy
        simp [hemp, hcols, hlt]
      rw [hfst]
      simp [hne, hlt]
    · have hfst : (get_historical_accuracy df days).1 =
          backtest_prediction (prepare df.closes) (df.closes.length - (60 + days))
            (df.closes.length - 1) days := by
        unfold get_historical_accuracy
        simp [hemp, hcols, hlt]
      rw [hfst]
      constructor
      · intro h
        exact absurd h (backtest_no_insufficient _ _ _ _)
      · rintro ⟨_, h⟩
        exact absurd h hlt

/-- C7 witness: the spec's own degenerate scenario — a 65-day series with
horizon 10 (minimum 70) — raises `InsufficientDataError`. -/
theorem c7_witness :
    (⟨List.replicate 65 (100 : ℚ), true, true⟩ : PyDF).hasOHLCV = true ∧
      (get_historical_accuracy ⟨List.replicate 65 (100 : ℚ), true, true⟩ 10).1 =
        Except.error PredError.insufficientData :=
  ⟨rfl, (c7_insufficient_data_guard ⟨List.replicate 65 (100 : ℚ), true, true⟩ 10 rfl).mpr
    ⟨by decide, by decide⟩⟩

/-- C7 counterexample: a 110-day series with horizon 10 derives an indicator
table of only 61 rows — fewer than the claimed `60 + horizonDays = 70`
minimum — yet `get_historical_accuracy` succeeds, because the guard looks at
the raw length (110), not the derived table. -/
theorem c7_counterexample_guard_on_raw_length :
    (get_historical_accuracy ⟨List.replicate 110 (100 : ℚ), true, true⟩ 10).1.isOk = true ∧
      (prepare (List.replicate 110 (100 : ℚ))).length < 60 + 10 := by
  constructor
  · decide
  · rw [prepare_length]
    simp

/-- C10 counterexample: a 65-day frame whose index is not yet a
`DatetimeIndex` is mutated by the accuracy computation —
`df.index = pd.to_datetime(df.index)` reassigns the caller's index in place
(here even though the call then fails the length check). -/
theorem c10_counterexample_index_mutation :
    (get_historical_accuracy ⟨List.replicate 65 (3 : ℚ), true, false⟩ 10).2 ≠
      (⟨List.replicate 65 (3 : ℚ), true, false⟩ : PyDF) := by
  have h2 : (get_historical_accuracy ⟨List.replicate 65 (3 : ℚ), true, false⟩ 10).2.dtIndex =
      true := rfl
  intro h
  rw [h] at h2
  exact Bool.false_ne_true h2

/-- C10 (amended): the forecast path never mutates the caller's rows or
columns (the backtester works on a `.copy()`), and the caller's frame is
returned entirely unchanged whenever its index is already a `DatetimeIndex`;
only a non-datetime index is reassigned in place. -/
theorem c10_no_mutation_when_datetime (df : PyDF) (days : ℕ)
    (hdt : df.dtIndex = true) :
    (get_historical_accuracy df days).2 = df := by
  unfold get_historical_accuracy
  by_cases hemp : df.closes.isEmpty <;> by_cases hcols : df.hasOHLCV = true <;>
    by_cases hlt : df.closes.length < 60 + days <;>
      simp [hemp, hcols, hlt, hdt]

/-- C10 witness: a 61-day datetime-indexed frame is returned unchanged. -/
theorem c10_witness :
    (⟨List.replicate 61 (2 : ℚ), true, true⟩ : PyDF).dtIndex = true ∧
      (get_historical_accuracy ⟨List.replicate 61 (2 : ℚ), true, true⟩ 1).2 =
        (⟨List.replicate 61 (2 : ℚ), true, true⟩ : PyDF) :=
  ⟨rfl, c10_no_mutation_when_datetime ⟨List.replicate 61 (2 : ℚ), true, true⟩ 1 rfl⟩

/-! ## Constant (flat) price series -/

/-- Reading inside a replicated list gives the replicated value. -/
theorem replicate_getD (L : ℕ) (k : ℚ) (t : ℕ) (h : t < L) :
    (List.replicate L k).getD t 0 = k := by
  simp [List.getD_eq_getElem?_getD, h]

/-- On a flat series every return is zero. -/
theorem retVal_replicate (L : ℕ) (k : ℚ) (t : ℕ) (hk : k ≠ 0)
    (h1 : 1 ≤ t) (h2 : t < L) : retVal (List.replicate L k) t = 0 := by
  rw [retVal, replicate_getD L k t h2, replicate_getD L k (t - 1) (by omega)]
  simp [div_self hk]

/-- On a flat series the 50-day moving average is the constant close. -/
theorem ma50Val_replicate (L : ℕ) (k : ℚ) (t : ℕ) (h2 : t < L) :
    ma50Val (List.replicate L k) t = k := by
  have hall : ∀ x ∈ (List.range 50).map
      (fun i => (List.replicate L k).getD (t - i) 0), x = k := by
    intro x hx
    obtain ⟨i, _, rfl⟩ := List.mem_map.mp hx
    exact replicate_getD L k (t - i) (by omega)
  have hmap := List.eq_replicate_of_mem hall
  rw [List.length_map, List.length_range] at hmap
  rw [ma50Val, hmap, List.sum_replicate, nsmul_eq_mul]
  exact mul_div_cancel_left₀ k (by norm_num)

/-- On a flat series the 20-day momentum is zero. -/
theorem momVal_replicate (L : ℕ) (k : ℚ) (t : ℕ) (hk : k ≠ 0) (h2 : t < L) :
    momVal (List.replicate L k) t = 0 := by
  rw [momVal, replicate_getD L k t h2, replicate_getD L k (t - 20) (by omega)]
  simp [div_self hk]

/-- The sample variance of an all-zero list vanishes. -/
theorem sampleVar_replicate_zero (n : ℕ) :
    sampleVar (List.replicate n (0 : ℚ)) = 0 := by
  simp [sampleVar, List.sum_replicate]

/-- On a flat series the rolling return variance is zero. -/
theorem volSqVal_replicate (L : ℕ) (k : ℚ) (t : ℕ) (hk : k ≠ 0)
    (h20 : 20 ≤ t) (h2 : t < L) : volSqVal (List.replicate L k) t = 0 := by
  have hall : ∀ x ∈ (List.range 20).map
      (fun i => retVal (List.replicate L k) (t - i)), x = 0 := by
    intro x hx
    obtain ⟨i, hi, rfl⟩ := List.mem_map.mp hx
    have hi20 : i < 20 := List.mem_range.mp hi
    exact retVal_replicate L k (t - i) hk (by omega) (by omega)
  have hmap := List.eq_replicate_of_mem hall
  rw [List.length_map, List.length_range] at hmap
  rw [volSqVal, hmap, sampleVar_replicate_zero]

/-- Every surviving indicator row of a flat positive series is the constant
row: close `k`, return 0, `ma50 = k`, momentum 0, zero variance. -/
theorem prepare_replicate_mem (L : ℕ) (k : ℚ) (hk : k ≠ 0) :
    ∀ r ∈ prepare (List.replicate L k), r = ⟨r.idx, k, 0, k, 0, 0⟩ := by
  intro r hr
  rw [prepare_structure] at hr
  obtain ⟨t, ht, rfl⟩ := List.mem_map.mp hr
  obtain ⟨i, hi, rfl⟩ := List.mem_range'.mp ht
  rw [List.length_replicate] at hi
  have h49 : 49 ≤ 49 + 1 * i := by omega
  have h2 : 49 + 1 * i < L := by omega
  rw [mkRow, replicate_getD L k _ h2, retVal_replicate L k _ hk (by omega) h2,
    ma50Val_replicate L k _ h2, momVal_replicate L k _ hk h2,
    volSqVal_replicate L k _ hk (by omega) h2]

/-- `getLastD` of a nonempty list is its last element. -/
theorem getLastD_of_ne_nil {α : Type _} [Inhabited α] (l : List α) (h : l ≠ []) :
    l.getLastD default = l.getLast h := by
  rw [List.getLastD_eq_getLast?, List.getLast?_eq_getLast l h]
  rfl

/-- When the last row sits on its own 50-day average with zero momentum and
zero return variance, the point prediction is exactly that row's close. -/
theorem make_prediction_steady (data : List IndRow) (horizon : ℕ)
    (hmom : (data.getLastD default).momentum = 0)
    (hma : (data.getLastD default).ma50 = (data.getLastD default).close)
    (hvol : (data.getLastD default).vol20sq = 0) :
    make_prediction data horizon = ((data.getLastD default).close : ℝ) := by
  simp only [make_prediction, IndRow.volatility, hmom, hma, hvol]
  push_cast
  simp [Real.sqrt_zero]

/-- For a 71-row indicator table the prediction window is the trailing
`min(50, 71 - 10) = 50` rows. -/
theorem predictionWindow_of_len71 (tbl : List IndRow) (h : tbl.length = 71) :
    predictionWindow tbl = tbl.drop 21 := by
  have hmin : min (50 : ℤ) ((tbl.length : ℤ) - 10) = 50 := by
    rw [h]
    norm_num [min_def]
  rw [predictionWindow, hmin]
  have h50 : (50 : ℤ).toNat = 50 := rfl
  norm_num [h, h50]

/-- C9: on a synthetic 120-day flat series (constant close 100) every derived
row has zero momentum, zero deviation from its 50-day average and zero return
variance; hence for any horizon ≥ 1 the predicted price is exactly the
current price 100 and both confidence intervals collapse to `[100, 100]`. -/
theorem c9_flat_series_exact (horizon : ℕ) (h1 : 1 ≤ horizon) :
    (∀ r ∈ prepare (List.replicate 120 (100 : ℚ)),
        r.momentum = 0 ∧ r.close - r.ma50 = 0 ∧ r.vol20sq = 0) ∧
      generatePrediction (prepare (List.replicate 120 (100 : ℚ))) horizon = 100 ∧
      confidenceInterval80 (predictionWindow (prepare (List.replicate 120 (100 : ℚ))))
          horizon (generatePrediction (prepare (List.replicate 120 (100 : ℚ))) horizon) =
        (100, 100) ∧
      confidenceInterval95 (predictionWindow (prepare (List.replicate 120 (100 : ℚ))))
          horizon (generatePrediction (prepare (List.replicate 120 (100 : ℚ))) horizon) =
        (100, 100) := by
  have hk : (100 : ℚ) ≠ 0 := by norm_num
  have hshape := prepare_replicate_mem 120 (100 : ℚ) hk
  have hlen : (prepare (List.replicate 120 (100 : ℚ))).length = 71 := by
    rw [prepare_length]
    simp
  have hwin : predictionWindow (prepare (List.replicate 120 (100 : ℚ))) =
      (prepare (List.replicate 120 (100 : ℚ))).drop 21 :=
    predictionWindow_of_len71 _ hlen
  have hwlen : ((prepare (List.replicate 120 (100 : ℚ))).drop 21).length = 50 := by
    rw [List.length_drop, hlen]
  have hwne : (prepare (List.replicate 120 (100 : ℚ))).drop 21 ≠ [] := by
    intro h
    rw [h] at hwlen
    simp at hwlen
  have hmem : ((prepare (List.replicate 120 (100 : ℚ))).drop 21).getLastD default ∈
      prepare (List.replicate 120 (100 : ℚ)) := by
    rw [getLastD_of_ne_nil _ hwne]
    exact List.drop_subset _ _ (List.getLast_mem hwne)
  have hlast := hshape _ hmem
  have hmom : (((prepare (List.replicate 120 (100 : ℚ))).drop 21).getLastD
      default).momentum = 0 := by rw [hlast]
  have hma : (((prepare (List.replicate 120 (100 : ℚ))).drop 21).getLastD
      default).ma50 = (((prepare (List.replicate 120 (100 : ℚ))).drop 21).getLastD
      default).close := by rw [hlast]
  have hvol : (((prepare (List.replicate 120 (100 : ℚ))).drop 21).getLastD
      default).vol20sq = 0 := by rw [hlast]
  have hclose : (((prepare (List.replicate 120 (100 : ℚ))).drop 21).getLastD
      default).close = 100 := by rw [hlast]
  have hpred : generatePrediction (prepare (List.replicate 120 (100 : ℚ))) horizon = 100 := by
    rw [generatePrediction, hwin, make_prediction_steady _ horizon hmom hma hvol, hclose]
    norm_num
  have hrets : ((prepare (List.replicate 120 (100 : ℚ))).drop 21).map (·.ret) =
      List.replicate 50 (0 : ℚ) := by
    have hall : ∀ x ∈ ((prepare (List.replicate 120 (100 : ℚ))).drop 21).map (·.ret),
        x = 0 := by
      intro x hx
      obtain ⟨r, hr, rfl⟩ := List.mem_map.mp hx
      rw [hshape r (List.drop_subset _ _ hr)]
    have h2 := List.eq_replicate_of_mem hall
    rw [List.length_map, hwlen] at h2
    exact h2
  have hvol0 : forecastVolatility ((prepare (List.replicate 120 (100 : ℚ))).drop 21)
      horizon = 0 := by
    rw [forecastVolatility, sampleStd, hrets, sampleVar_replicate_zero]
    simp
  refine ⟨?_, hpred, ?_, ?_⟩
  · intro r hr
    rw [hshape r hr]
    exact ⟨rfl, by norm_num, rfl⟩
  · rw [hwin, hpred]
    simp only [confidenceInterval80, hvol0]
    norm_num
  · rw [hwin, hpred]
    simp only [confidenceInterval95, hvol0]
    norm_num

/-- C9 witness: the flat-series scenario instantiated at horizon 7. -/
theorem c9_witness :
    generatePrediction (prepare (List.replicate 120 (100 : ℚ))) 7 = 100 ∧
      confidenceInterval80 (predictionWindow (prepare (List.replicate 120 (100 : ℚ))))
          7 (generatePrediction (prepare (List.replicate 120 (100 : ℚ))) 7) = (100, 100) :=
  ⟨(c9_flat_series_exact 7 (by norm_num)).2.1,
   (c9_flat_series_exact 7 (by norm_num)).2.2.1⟩

/-! ## Directional accuracy (C8) -/

noncomputable instance : Inhabited BacktestReport := ⟨⟨0, 0, 0, 0, 0, 0⟩⟩

/-- The report inside a successful backtest result. -/
noncomputable def reportOf (x : Except PredError BacktestReport) : BacktestReport :=
  match x with
  | .ok r => r
  | .error _ => default

/-- A backtest over a nonempty slice with a positive horizon succeeds, and
its prediction count is `len(testSlice) - horizon`. -/
theorem backtest_ok_of_ne (data : List IndRow) (s e horizon : ℕ)
    (h1 : 1 ≤ horizon) (hne : testSlice data s e ≠ []) :
    backtest_prediction data s e horizon =
        Except.ok (reportOf (backtest_prediction data s e horizon)) ∧
      (reportOf (backtest_prediction data s e horizon)).n_predictions =
        (testSlice data s e).length - horizon := by
  have hpos : 0 < (testSlice data s e).length := List.length_pos.mpr hne
  simp only [backtest_prediction]
  rw [if_neg (by omega)]
  exact ⟨rfl, rfl⟩

/-- The reported directional accuracy, written out: the mean of the per-index
sign agreements, times 100. -/
theorem backtest_dir_formula (data : List IndRow) (s e horizon : ℕ)
    (h1 : 1 ≤ horizon) (hne : testSlice data s e ≠ []) :
    (reportOf (backtest_prediction data s e horizon)).directional_accuracy =
      ((∑ i ∈ Finset.range ((testSlice data s e).length - horizon),
          if Real.sign (actualMove data s e i) = Real.sign (predMove data s e horizon i)
          then (1 : ℝ) else 0) /
        (((testSlice data s e).length - horizon : ℕ) : ℝ)) * 100 := by
  have hpos : 0 < (testSlice data s e).length := List.length_pos.mpr hne
  simp only [backtest_prediction]
  rw [if_neg (by omega)]
  rfl

open Classical in
/-- Claim-side definition: the *fraction* of prediction indices whose
one-step realized direction `sign(close[i+1] − close[i])` agrees with the
horizon-step predicted direction `sign(prediction[i] − close[i])`. -/
noncomputable def claimDirectionalFraction (data : List IndRow) (s e horizon : ℕ) : ℝ :=
  (((Finset.range ((testSlice data s e).length - horizon)).filter fun i =>
      Real.sign (actualMove data s e i) = Real.sign (predMove data s e horizon i)).card : ℝ) /
    (((testSlice data s e).length - horizon : ℕ) : ℝ)

/-- C8 (amended): for every backtest with at least one prediction, the
reported `directionalAccuracy` is `100 ×` the matching fraction — the
asymmetric one-step-versus-horizon-step comparison of the source, reported
as a percentage, not as the bare fraction. -/
theorem c8_directional_accuracy_percentage (data : List IndRow) (s e horizon : ℕ)
    (r : BacktestReport) (hok : backtest_prediction data s e horizon = Except.ok r)
    (hn : 1 ≤ r.n_predictions) :
    r.directional_accuracy = 100 * claimDirectionalFraction data s e horizon := by
  have hdir : r.directional_accuracy =
      ((∑ i ∈ Finset.range ((testSlice data s e).length - horizon),
          if Real.sign (actualMove data s e i) = Real.sign (predMove data s e horizon i)
          then (1 : ℝ) else 0) /
        (((testSlice data s e).length - horizon : ℕ) : ℝ)) * 100 := by
    simp only [backtest_prediction] at hok
    split at hok
    · exact absurd hok (by simp)
    · rw [← Except.ok.inj hok]
  rw [hdir, claimDirectionalFraction, ← Finset.sum_boole]
  ring

/-- C8 witness: a three-row table sliced over `[0, 5]` with horizon 1 gives a
successful backtest with two predictions whose directional accuracy is 100
times the matching fraction. -/
theorem c8_witness :
    ∃ r, backtest_prediction
        [⟨0, 10, 1, 5, 1, 0⟩, ⟨1, 20, 1, 5, 1, 0⟩, ⟨2, 30, 1, 5, 1, 0⟩] 0 5 1 =
          Except.ok r ∧ 1 ≤ r.n_predictions ∧
        r.directional_accuracy = 100 * claimDirectionalFraction
          [⟨0, 10, 1, 5, 1, 0⟩, ⟨1, 20, 1, 5, 1, 0⟩, ⟨2, 30, 1, 5, 1, 0⟩] 0 5 1 := by
  have hne : testSlice
      [⟨0, 10, 1, 5, 1, 0⟩, ⟨1, 20, 1, 5, 1, 0⟩, ⟨2, 30, 1, 5, 1, 0⟩] 0 5 ≠ [] := by
    decide
  obtain ⟨hok, hnp⟩ := backtest_ok_of_ne
    [⟨0, 10, 1, 5, 1, 0⟩, ⟨1, 20, 1, 5, 1, 0⟩, ⟨2, 30, 1, 5, 1, 0⟩] 0 5 1 (by norm_num) hne
  refine ⟨_, hok, ?_, c8_directional_accuracy_percentage _ 0 5 1 _ hok ?_⟩ <;>
    · rw [hnp]
      decide

/-- Three flat indicator rows (constant close 100, zero indicators), used to
exhibit the percentage-versus-fraction gap of the directional accuracy. -/
def flatRows3 : List IndRow :=
  [⟨0, 100, 0, 100, 0, 0⟩, ⟨1, 100, 0, 100, 0, 0⟩, ⟨2, 100, 0, 100, 0, 0⟩]

/-- C8 counterexample: on the flat three-row table with horizon 1 both
predicted and realized moves are zero everywhere, so the matching fraction is
1, yet the reported `directional_accuracy` is `100` — the report is a
percentage, not the fraction the claim states. -/
theorem c8_counterexample_percentage_not_fraction :
    (reportOf (backtest_prediction flatRows3 0 2 1)).directional_accuracy ≠
      claimDirectionalFraction flatRows3 0 2 1 := by
  have hne : testSlice flatRows3 0 2 ≠ [] := by decide
  have hts : testSlice flatRows3 0 2 = flatRows3 := rfl
  have hl : (testSlice flatRows3 0 2).length = 3 := by rw [hts]; rfl
  have hg0 : (testSlice flatRows3 0 2).getD 0 default = ⟨0, 100, 0, 100, 0, 0⟩ := rfl
  have hg1 : (testSlice flatRows3 0 2).getD 1 default = ⟨1, 100, 0, 100, 0, 0⟩ := rfl
  have hg2 : (testSlice flatRows3 0 2).getD 2 default = ⟨2, 100, 0, 100, 0, 0⟩ := rfl
  have hsc0 : sliceClose flatRows3 0 2 0 = 100 := by
    rw [sliceClose, hg0]
    norm_num
  have hsc1 : sliceClose flatRows3 0 2 1 = 100 := by
    rw [sliceClose, hg1]
    norm_num
  have hsc2 : sliceClose flatRows3 0 2 2 = 100 := by
    rw [sliceClose, hg2]
    norm_num
  have ha0 : asOf flatRows3 0 = [⟨0, 100, 0, 100, 0, 0⟩] := rfl
  have ha1 : asOf flatRows3 1 = [⟨0, 100, 0, 100, 0, 0⟩, ⟨1, 100, 0, 100, 0, 0⟩] := rfl
  have hidx0 : ((testSlice flatRows3 0 2).getD 0 default).idx = 0 := rfl
  have hidx1 : ((testSlice flatRows3 0 2).getD 1 default).idx = 1 := rfl
  have hp0 : predAt flatRows3 0 2 1 0 = 100 := by
    rw [predAt, hidx0, ha0,
      make_prediction_steady [⟨0, 100, 0, 100, 0, 0⟩] 1 rfl rfl rfl]
    norm_num
  have hp1 : predAt flatRows3 0 2 1 1 = 100 := by
    rw [predAt, hidx1, ha1, make_prediction_steady
      [⟨0, 100, 0, 100, 0, 0⟩, ⟨1, 100, 0, 100, 0, 0⟩] 1 rfl rfl rfl]
    norm_num
  have ham0 : actualMove flatRows3 0 2 0 = 0 := by
    rw [actualMove]
    norm_num [hsc0, hsc1]
  have ham1 : actualMove flatRows3 0 2 1 = 0 := by
    rw [actualMove]
    norm_num [hsc1, hsc2]
  have hpm0 : predMove flatRows3 0 2 1 0 = 0 := by
    rw [predMove, hp0, hsc0]
    ring
  have hpm1 : predMove flatRows3 0 2 1 1 = 0 := by
    rw [predMove, hp1, hsc1]
    ring
  have hdir : (reportOf (backtest_prediction flatRows3 0 2 1)).directional_accuracy = 100 := by
    rw [backtest_dir_formula flatRows3 0 2 1 (by norm_num) hne, hl]
    have h2 : (3 : ℕ) - 1 = 2 := rfl
    rw [h2, Finset.sum_range_succ, Finset.sum_range_succ, Finset.sum_range_zero,
      ham0, ham1, hpm0, hpm1]
    norm_num
  have hfrac : claimDirectionalFraction flatRows3 0 2 1 = 1 := by
    rw [claimDirectionalFraction, hl]
    have hfil : (Finset.range (3 - 1)).filter (fun i =>
        Real.sign (actualMove flatRows3 0 2 i) =
          Real.sign (predMove flatRows3 0 2 1 i)) = Finset.range (3 - 1) := by
      apply Finset.filter_true_of_mem
      intro i hi
      rw [Finset.mem_range] at hi
      interval_cases i
      · rw [ham0, hpm0]
      · rw [ham1, hpm1]
    rw [hfil]
    norm_num
  rw [hdir, hfrac]
  norm_num
